import Mathlib

/-!
Shallow embedding of the DS1307 RTC driver (DS1307.c / DS1307.h).

The C driver mutates an in-memory context (`ds1307_context_t`) and talks to
the chip through two caller-supplied I2C functions.  We model the chip as a
register file `regfile_t` acting as the echo transport: a register read
returns the last byte written to that register (this is exactly the fake
transport the repository's testable properties are phrased against).  Every
transport transaction is recorded in a trace of `txn_t` values so that
claims about issued reads and writes can be stated.  C `uint8_t` values are
`Nat` with `% 256` at every narrowing conversion, `uint16_t` values are
`Nat` with `% 65536`, and C enums are `Nat` constants carrying the C values.
Each driver operation becomes a function from (context, register file) to
(context, register file, transaction list).
-/

/-- C enum `ds1307_clock_t`: DS1307_CLOCK_ENABLE = 0. -/
def DS1307_CLOCK_ENABLE : Nat := 0

/-- C enum `ds1307_clock_t`: DS1307_CLOCK_DISABLE = 1. -/
def DS1307_CLOCK_DISABLE : Nat := 1

/-- C enum `ds1307_timeperiod_t`: DS1307_AM = 0. -/
def DS1307_AM : Nat := 0

/-- C enum `ds1307_timeperiod_t`: DS1307_PM = 1. -/
def DS1307_PM : Nat := 1

/-- C enum `ds1307_timeperiod_t`: DS1307_NONE = 2. -/
def DS1307_NONE : Nat := 2

/-- C enum `ds_1307_hour_format_t`: DS1307_HOUR_FORMAT_24 = 0. -/
def DS1307_HOUR_FORMAT_24 : Nat := 0

/-- C enum `ds_1307_hour_format_t`: DS1307_HOUR_FORMAT_12 = 1. -/
def DS1307_HOUR_FORMAT_12 : Nat := 1

/-- C enum `ds1307_reg_adr_t`: seconds register address. -/
def DS1307_SEC_REG_ADR : Nat := 0

/-- C enum `ds1307_reg_adr_t`: minutes register address. -/
def DS1307_MIN_REG_ADR : Nat := 1

/-- C enum `ds1307_reg_adr_t`: hours register address. -/
def DS1307_HOUR_REG_ADR : Nat := 2

/-- C enum `ds1307_reg_adr_t`: day-of-week register address. -/
def DS1307_DAY_REG_ADR : Nat := 3

/-- C enum `ds1307_reg_adr_t`: day-of-month register address. -/
def DS1307_DATE_REG_ADR : Nat := 4

/-- C enum `ds1307_reg_adr_t`: month register address. -/
def DS1307_MONTH_REG_ADR : Nat := 5

/-- C enum `ds1307_reg_adr_t`: year register address. -/
def DS1307_YEAR_REG_ADR : Nat := 6

/-- `DecToBcd` from DS1307.c line 375: `((value / 10) << 4) + (value % 10)`,
computed in `int` after integer promotion and truncated to `uint8_t` on
return (hence the final `% 256`). -/
def DecToBcd (value : Nat) : Nat :=
  (((value / 10) <<< 4) + value % 10) % 256

/-- `BcdToDec` from DS1307.c line 364:
`(((value & 0xf0) >> 4) * 10) + (value & 0x0f)`, truncated to `uint8_t` on
return. -/
def BcdToDec (value : Nat) : Nat :=
  ((((value &&& 0xf0) >>> 4) * 10) + (value &&& 0x0f)) % 256

/-- One I2C transaction at the transport boundary: a register write of one
byte, or a register read that returned one byte. -/
inductive txn_t where
  | send (reg_adr : Nat) (val : Nat)
  | rcv (reg_adr : Nat) (val : Nat)
deriving DecidableEq, Repr

/-- The DS1307 register map (addresses 0x00-0x07), acting as the echo
transport: a read returns the last byte written.  Each field is one byte. -/
structure regfile_t where
  sec : Nat
  min : Nat
  hour : Nat
  day : Nat
  date : Nat
  month : Nat
  year : Nat
  control : Nat
deriving DecidableEq, Repr

/-- Store one byte at a register address (narrowed to `uint8_t`). -/
def regfile_t.write (r : regfile_t) (adr val : Nat) : regfile_t :=
  if adr = 0 then { r with sec := val % 256 }
  else if adr = 1 then { r with min := val % 256 }
  else if adr = 2 then { r with hour := val % 256 }
  else if adr = 3 then { r with day := val % 256 }
  else if adr = 4 then { r with date := val % 256 }
  else if adr = 5 then { r with month := val % 256 }
  else if adr = 6 then { r with year := val % 256 }
  else { r with control := val % 256 }

/-- Fetch the byte at a register address (a read delivers a `uint8_t`). -/
def regfile_t.fetch (r : regfile_t) (adr : Nat) : Nat :=
  (if adr = 0 then r.sec
   else if adr = 1 then r.min
   else if adr = 2 then r.hour
   else if adr = 3 then r.day
   else if adr = 4 then r.date
   else if adr = 5 then r.month
   else if adr = 6 then r.year
   else r.control) % 256

/-- The C `ds1307_context_t` (DS1307.h lines 147-159), minus the transport
function pointers which are modelled by `regfile_t`.  `year` and `century`
are `uint16_t`; the remaining numeric fields are `uint8_t` or int-sized C
enums, all embedded as `Nat`. -/
structure ds1307_context_t where
  day : Nat
  month : Nat
  year : Nat
  hour : Nat
  minute : Nat
  second : Nat
  date : Nat
  time_period : Nat
  time_format : Nat
  century : Nat
deriving DecidableEq, Repr

/-- `ds1307_i2c_send`: forwards a one-byte register write to the transport
(here: the echo register file) and records the transaction. -/
def ds1307_i2c_send (regs : regfile_t) (reg_adr ds1307_data : Nat) :
    regfile_t × List txn_t :=
  (regs.write reg_adr ds1307_data, [txn_t.send reg_adr ds1307_data])

/-- `ds1307_i2c_read`: forwards a one-byte register read to the transport
and records the transaction together with the byte it returned. -/
def ds1307_i2c_read (regs : regfile_t) (reg_adr : Nat) : Nat × List txn_t :=
  (regs.fetch reg_adr, [txn_t.rcv reg_adr (regs.fetch reg_adr)])

/-- `ds1307_set_minute` (DS1307.c line 58): BCD-encode and write the minutes
register.  The `minute` parameter is `uint8_t`, hence `% 256` on entry. -/
def ds1307_set_minute (usr : ds1307_context_t) (regs : regfile_t) (minute : Nat) :
    ds1307_context_t × regfile_t × List txn_t :=
  let data := DecToBcd (minute % 256)
  let s := ds1307_i2c_send regs DS1307_MIN_REG_ADR data
  (usr, s.1, s.2)

/-- `ds1307_get_minute` (DS1307.c line 68): read the minutes register,
BCD-decode, store into the context. -/
def ds1307_get_minute (usr : ds1307_context_t) (regs : regfile_t) :
    ds1307_context_t × regfile_t × List txn_t :=
  let r := ds1307_i2c_read regs DS1307_MIN_REG_ADR
  ({ usr with minute := BcdToDec r.1 }, regs, r.2)

/-- `ds1307_set_second` (DS1307.c line 81): BCD-encode and write the seconds
register. -/
def ds1307_set_second (usr : ds1307_context_t) (regs : regfile_t) (second : Nat) :
    ds1307_context_t × regfile_t × List txn_t :=
  let data := DecToBcd (second % 256)
  let s := ds1307_i2c_send regs DS1307_SEC_REG_ADR data
  (usr, s.1, s.2)

/-- `ds1307_get_second` (DS1307.c line 92): read the seconds register, mask
the CH bit (`second &= ~(1U << 7)`, i.e. `&&& 0x7f` on a byte), BCD-decode,
store into the context. -/
def ds1307_get_second (usr : ds1307_context_t) (regs : regfile_t) :
    ds1307_context_t × regfile_t × List txn_t :=
  let r := ds1307_i2c_read regs DS1307_SEC_REG_ADR
  ({ usr with second := BcdToDec (r.1 &&& 0x7f) }, regs, r.2)

/-- `ds1307_set_hour` (DS1307.c lines 112-142).  The input is always a
24-hour value.  In 12-hour mode the conversion mirrors the C branch
structure exactly, including the unreachable `h == 12` branch after the
subtraction and the `hour == 0` branch that adds 12 without BCD-encoding.
`hour &= ~(1U << 5)` on a byte is `&&& 0xdf`.  Both C branches end in a
single write to the hour register, so the write is factored out. -/
def ds1307_set_hour (usr : ds1307_context_t) (regs : regfile_t) (hour : Nat) :
    ds1307_context_t × regfile_t × List txn_t :=
  let hour0 := hour % 256
  let data :=
    if usr.time_format = DS1307_HOUR_FORMAT_12 then
      (if hour0 > 11 then
        (let h := hour0 - 12
         if h = 0 then DecToBcd 12 ||| (1 <<< 5)
         else if h = 12 then DecToBcd h &&& 0xdf
         else DecToBcd h ||| (1 <<< 5))
       else if hour0 = 0 then hour0 + 12
       else DecToBcd hour0 &&& 0xdf) ||| (1 <<< 6)
    else DecToBcd hour0
  let s := ds1307_i2c_send regs DS1307_HOUR_REG_ADR data
  (usr, s.1, s.2)

/-- `ds1307_get_hour` (DS1307.c lines 150-165): read the hour register,
extract bit 6 into `time_format` (`(hour & 0x40) >> 6`), clear it
(`&&& 0xbf`); in 12-hour mode extract bit 5 into `time_period` and clear it
(`&&& 0xdf`), otherwise set `time_period` to DS1307_NONE; BCD-decode the
rest into `hour`. -/
def ds1307_get_hour (usr : ds1307_context_t) (regs : regfile_t) :
    ds1307_context_t × regfile_t × List txn_t :=
  let r := ds1307_i2c_read regs DS1307_HOUR_REG_ADR
  let tf := (r.1 &&& 0x40) >>> 6
  let hour1 := r.1 &&& 0xbf
  let tp := if tf = DS1307_HOUR_FORMAT_12 then (hour1 &&& 0x20) >>> 5 else DS1307_NONE
  let hour2 := if tf = DS1307_HOUR_FORMAT_12 then hour1 &&& 0xdf else hour1
  ({ usr with time_format := tf, time_period := tp, hour := BcdToDec hour2 }, regs, r.2)

/-- `ds1307_set_date` (DS1307.c line 223). -/
def ds1307_set_date (usr : ds1307_context_t) (regs : regfile_t) (date : Nat) :
    ds1307_context_t × regfile_t × List txn_t :=
  let data := DecToBcd (date % 256)
  let s := ds1307_i2c_send regs DS1307_DATE_REG_ADR data
  (usr, s.1, s.2)

/-- `ds1307_get_date` (DS1307.c line 233). -/
def ds1307_get_date (usr : ds1307_context_t) (regs : regfile_t) :
    ds1307_context_t × regfile_t × List txn_t :=
  let r := ds1307_i2c_read regs DS1307_DATE_REG_ADR
  ({ usr with date := BcdToDec r.1 }, regs, r.2)

/-- `ds1307_set_day` (DS1307.c line 246): `DecToBcd(day)` narrows the int
day to the `uint8_t` parameter first. -/
def ds1307_set_day (usr : ds1307_context_t) (regs : regfile_t) (day : Nat) :
    ds1307_context_t × regfile_t × List txn_t :=
  let data := DecToBcd (day % 256)
  let s := ds1307_i2c_send regs DS1307_DAY_REG_ADR data
  (usr, s.1, s.2)

/-- `ds1307_get_day` (DS1307.c line 257). -/
def ds1307_get_day (usr : ds1307_context_t) (regs : regfile_t) :
    ds1307_context_t × regfile_t × List txn_t :=
  let r := ds1307_i2c_read regs DS1307_DAY_REG_ADR
  ({ usr with day := BcdToDec r.1 }, regs, r.2)

/-- `ds1307_set_month` (DS1307.c line 271). -/
def ds1307_set_month (usr : ds1307_context_t) (regs : regfile_t) (month : Nat) :
    ds1307_context_t × regfile_t × List txn_t :=
  let data := DecToBcd (month % 256)
  let s := ds1307_i2c_send regs DS1307_MONTH_REG_ADR data
  (usr, s.1, s.2)

/-- `ds1307_get_month` (DS1307.c line 283). -/
def ds1307_get_month (usr : ds1307_context_t) (regs : regfile_t) :
    ds1307_context_t × regfile_t × List txn_t :=
  let r := ds1307_i2c_read regs DS1307_MONTH_REG_ADR
  ({ usr with month := BcdToDec r.1 }, regs, r.2)

/-- `ds1307_set_year` (DS1307.c lines 298-303): split the `uint16_t` year
into the 2-digit remainder (BCD-encoded and written to the chip) and the
century remainder stored in `usr.century`. -/
def ds1307_set_year (usr : ds1307_context_t) (regs : regfile_t) (year : Nat) :
    ds1307_context_t × regfile_t × List txn_t :=
  let year16 := year % 65536
  let year_8bit := year16 % 100
  let usr1 := { usr with century := year16 - year_8bit }
  let data := DecToBcd year_8bit
  let s := ds1307_i2c_send regs DS1307_YEAR_REG_ADR data
  (usr1, s.1, s.2)

/-- `ds1307_get_year` (DS1307.c lines 311-316): read the 2-digit BCD year
and reconstruct `usr.year = usr.century + decoded` (`uint16_t` addition). -/
def ds1307_get_year (usr : ds1307_context_t) (regs : regfile_t) :
    ds1307_context_t × regfile_t × List txn_t :=
  let r := ds1307_i2c_read regs DS1307_YEAR_REG_ADR
  ({ usr with year := (usr.century + BcdToDec r.1) % 65536 }, regs, r.2)

/-- `ds1307_set_ch` (DS1307.c lines 328-338): write a single byte to the
seconds register, `0 | (1 << 7)` to disable the clock, `0` to enable it.
Both C branches end in the same single write, so the byte is factored. -/
def ds1307_set_ch (usr : ds1307_context_t) (regs : regfile_t) (clock : Nat) :
    ds1307_context_t × regfile_t × List txn_t :=
  let ch := if clock = DS1307_CLOCK_DISABLE then 0 ||| (1 <<< 7) else 0
  let s := ds1307_i2c_send regs DS1307_SEC_REG_ADR ch
  (usr, s.1, s.2)

/-- The `switch (format)` statement of `ds1307_set_time_format` (DS1307.c
lines 186-205): record the new format; when switching to 24-hour mode, map
PM hours other than 12 to hour+12 and AM hour 12 to 0; `time_period` is not
touched.  The `default` case changes nothing. -/
def ds1307_format_switch (usr : ds1307_context_t) (format : Nat) :
    ds1307_context_t :=
  if format = DS1307_HOUR_FORMAT_12 then
    { usr with time_format := DS1307_HOUR_FORMAT_12 }
  else if format = DS1307_HOUR_FORMAT_24 then
    (let usr24 := { usr with time_format := DS1307_HOUR_FORMAT_24 }
     if usr24.time_period = DS1307_PM then
       (if usr24.hour ≠ 12 then { usr24 with hour := (usr24.hour + 12) % 256 }
        else usr24)
     else
       (if usr24.hour = 12 then { usr24 with hour := 0 } else usr24))
  else usr

/-- `ds1307_set_time_format` (DS1307.c lines 182-215): read the hour
register; if the recovered format differs from the target, halt the clock,
adjust the context per the C `switch` (`ds1307_format_switch`), then
rewrite all seven time fields from the context.  Intermediate results are
threaded explicitly; the trace is the concatenation of all sub-operation
traces in program order. -/
def ds1307_set_time_format (usr : ds1307_context_t) (regs : regfile_t) (format : Nat) :
    ds1307_context_t × regfile_t × List txn_t :=
  let r0 := ds1307_get_hour usr regs
  let usr0 := r0.1
  if usr0.time_format ≠ format then
    let r1 := ds1307_set_ch usr0 r0.2.1 DS1307_CLOCK_DISABLE
    let usr1 := ds1307_format_switch usr0 format
    let r2 := ds1307_set_year usr1 r1.2.1 usr1.year
    let r3 := ds1307_set_month r2.1 r2.2.1 r2.1.month
    let r4 := ds1307_set_date r3.1 r3.2.1 r3.1.date
    let r5 := ds1307_set_day r4.1 r4.2.1 r4.1.day
    let r6 := ds1307_set_hour r5.1 r5.2.1 r5.1.hour
    let r7 := ds1307_set_minute r6.1 r6.2.1 r6.1.minute
    let r8 := ds1307_set_second r7.1 r7.2.1 r7.1.second
    (r8.1, r8.2.1,
      r0.2.2 ++ r1.2.2 ++ r2.2.2 ++ r3.2.2 ++ r4.2.2 ++ r5.2.2 ++ r6.2.2 ++
        r7.2.2 ++ r8.2.2)
  else
    (usr0, r0.2.1, r0.2.2)

/-- `DS1307_read_date_time` (DS1307.c lines 347-357): the seven reads in
fixed order. -/
def DS1307_read_date_time (usr : ds1307_context_t) (regs : regfile_t) :
    ds1307_context_t × regfile_t × List txn_t :=
  let r1 := ds1307_get_year usr regs
  let r2 := ds1307_get_month r1.1 r1.2.1
  let r3 := ds1307_get_date r2.1 r2.2.1
  let r4 := ds1307_get_day r3.1 r3.2.1
  let r5 := ds1307_get_hour r4.1 r4.2.1
  let r6 := ds1307_get_minute r5.1 r5.2.1
  let r7 := ds1307_get_second r6.1 r6.2.1
  (r7.1, r7.2.1,
    r1.2.2 ++ r2.2.2 ++ r3.2.2 ++ r4.2.2 ++ r5.2.2 ++ r6.2.2 ++ r7.2.2)

/-- The context invariants stated in the specification data model: in
24-hour mode `time_period` is NONE; in 12-hour mode `hour` lies in [1,12]
and `time_period` is AM or PM. -/
def ctx_invariant (usr : ds1307_context_t) : Prop :=
  (usr.time_format = DS1307_HOUR_FORMAT_24 → usr.time_period = DS1307_NONE) ∧
  (usr.time_format = DS1307_HOUR_FORMAT_12 →
    (1 ≤ usr.hour ∧ usr.hour ≤ 12) ∧
      (usr.time_period = DS1307_AM ∨ usr.time_period = DS1307_PM))

instance (usr : ds1307_context_t) : Decidable (ctx_invariant usr) := by
  unfold ctx_invariant
  infer_instance

/-- Sample register file with all registers zero. -/
def sample_regs : regfile_t :=
  { sec := 0, min := 0, hour := 0, day := 0, date := 0, month := 0, year := 0,
    control := 0 }

/-- Sample context in 24-hour mode satisfying the data-model invariants. -/
def sample_ctx24 : ds1307_context_t :=
  { day := 1, month := 1, year := 2025, hour := 0, minute := 0, second := 0,
    date := 1, time_period := DS1307_NONE, time_format := DS1307_HOUR_FORMAT_24,
    century := 2000 }

/-- Sample context in 12-hour mode satisfying the data-model invariants. -/
def sample_ctx12 : ds1307_context_t :=
  { day := 1, month := 1, year := 2025, hour := 5, minute := 0, second := 0,
    date := 1, time_period := DS1307_AM, time_format := DS1307_HOUR_FORMAT_12,
    century := 2000 }

/-- The BCD round trip is the identity below 100 (bounded form used both by
the round-trip claim and by the year reconstruction proof). -/
lemma bcd_roundtrip_lt : ∀ v < 100, BcdToDec (DecToBcd v) = v := by decide

/-- Bit 6 of any value, shifted down, is at most 1. -/
lemma bit6_shift_le_one (x : Nat) : (x &&& 0x40) >>> 6 ≤ 1 := by
  have h1 : x &&& 0x40 ≤ 0x40 := Nat.and_le_right
  have h2 : (x &&& 0x40) >>> 6 = (x &&& 0x40) / 2 ^ 6 := Nat.shiftRight_eq_div_pow _ _
  omega

/-- Bit 5 of any value, shifted down, is at most 1. -/
lemma bit5_shift_le_one (x : Nat) : (x &&& 0x20) >>> 5 ≤ 1 := by
  have h1 : x &&& 0x20 ≤ 0x20 := Nat.and_le_right
  have h2 : (x &&& 0x20) >>> 5 = (x &&& 0x20) / 2 ^ 5 := Nat.shiftRight_eq_div_pow _ _
  omega

/-- BCD encodings of in-range seconds are bytes with bit 7 clear. -/
lemma decbcd_second_byte : ∀ s < 60, DecToBcd s % 256 = DecToBcd s ∧
    DecToBcd s &&& 0x80 = 0 ∧ DecToBcd s < 128 := by decide

/-- Claim C4: encoding a decimal value in 0-99 to packed BCD and decoding it
back is the identity. -/
theorem bcd_roundtrip (v : Nat) (hv : v ≤ 99) : BcdToDec (DecToBcd v) = v :=
  bcd_roundtrip_lt v (by omega)

/-- Witness for C4 at v = 42. -/
theorem bcd_roundtrip_witness : 42 ≤ 99 ∧ BcdToDec (DecToBcd 42) = 42 :=
  ⟨by decide, bcd_roundtrip 42 (by decide)⟩

/-- Claim C7: `ds1307_set_ch` performs exactly one transaction, a one-byte
write to the seconds register, 0x80 when disabling and 0x00 when enabling,
for every context and every chip state; the previous seconds byte is
overwritten and the context is untouched. -/
theorem ds1307_set_ch_single_destructive_write (usr : ds1307_context_t)
    (regs : regfile_t) :
    (ds1307_set_ch usr regs DS1307_CLOCK_DISABLE).2.2 =
      [txn_t.send DS1307_SEC_REG_ADR 0x80] ∧
    (ds1307_set_ch usr regs DS1307_CLOCK_DISABLE).2.1 = { regs with sec := 0x80 } ∧
    (ds1307_set_ch usr regs DS1307_CLOCK_DISABLE).1 = usr ∧
    (ds1307_set_ch usr regs DS1307_CLOCK_ENABLE).2.2 =
      [txn_t.send DS1307_SEC_REG_ADR 0x00] ∧
    (ds1307_set_ch usr regs DS1307_CLOCK_ENABLE).2.1 = { regs with sec := 0x00 } ∧
    (ds1307_set_ch usr regs DS1307_CLOCK_ENABLE).1 = usr :=
  ⟨rfl, rfl, rfl, rfl, rfl, rfl⟩

/-- Claim C10: for every transport byte, `ds1307_get_hour` stores only
in-range enum values: `time_format` is 24H or 12H and `time_period` is AM,
PM or NONE. -/
theorem ds1307_get_hour_enum_range (usr : ds1307_context_t) (regs : regfile_t) :
    ((ds1307_get_hour usr regs).1.time_format = DS1307_HOUR_FORMAT_24 ∨
      (ds1307_get_hour usr regs).1.time_format = DS1307_HOUR_FORMAT_12) ∧
    ((ds1307_get_hour usr regs).1.time_period = DS1307_AM ∨
      (ds1307_get_hour usr regs).1.time_period = DS1307_PM ∨
      (ds1307_get_hour usr regs).1.time_period = DS1307_NONE) := by
  have h6 := bit6_shift_le_one (regs.fetch DS1307_HOUR_REG_ADR)
  have h5 := bit5_shift_le_one (regs.fetch DS1307_HOUR_REG_ADR &&& 0xbf)
  simp only [ds1307_get_hour, ds1307_i2c_read, DS1307_HOUR_FORMAT_24,
    DS1307_HOUR_FORMAT_12, DS1307_AM, DS1307_PM, DS1307_NONE]
  constructor
  · omega
  · split
    · omega
    · omega

/-- Claim C1 (evaluation of the failing input): in 12-hour mode,
`ds1307_set_hour` with hour 0 writes the byte 0x4C, raw binary 12 with the
12-hour marker bit set and the AM/PM bit clear, not the BCD-encoded byte
0x52: the `hour == 0` branch of the C code skips `DecToBcd`. -/
theorem ds1307_set_hour_midnight_writes_raw12 :
    (ds1307_set_hour sample_ctx12 sample_regs 0).2.2 =
      [txn_t.send DS1307_HOUR_REG_ADR 0x4C] ∧
    (0x4C : Nat) &&& 0x40 = 0x40 ∧ (0x4C : Nat) &&& 0x20 = 0 ∧
    DecToBcd 12 = 0x12 ∧ (0x4C : Nat) ≠ 0x52 := by decide

/-- Counterexample for C2: starting from an invariant-satisfying 24-hour
context with the chip holding hour 13, switching to 12-hour format leaves
`hour = 13` and `time_period = NONE` in the context, and starting from an
invariant-satisfying 12-hour context with the chip holding 1 PM, switching
to 24-hour format leaves `time_period = PM`; both break the invariants. -/
theorem ds1307_set_time_format_invariant_cex :
    ctx_invariant sample_ctx24 ∧
    ¬ ctx_invariant
        (ds1307_set_time_format sample_ctx24 { sample_regs with hour := 0x13 }
          DS1307_HOUR_FORMAT_12).1 ∧
    ctx_invariant sample_ctx12 ∧
    ¬ ctx_invariant
        (ds1307_set_time_format sample_ctx12 { sample_regs with hour := 0x61 }
          DS1307_HOUR_FORMAT_24).1 := by decide

/-- Counterexample for C8: `ds1307_set_time_format` does write
`ctx.century` (through its internal `ds1307_set_year` call): at a concrete
state with `century = 7` and `year = 0` the call changes `century` to 0. -/
theorem ds1307_set_time_format_writes_century_cex :
    (ds1307_set_time_format { sample_ctx24 with century := 7, year := 0 }
        sample_regs DS1307_HOUR_FORMAT_12).1.century = 0 ∧
    ({ sample_ctx24 with century := 7, year := 0 } :
        ds1307_context_t).century = 7 := by decide

/-- A hour-register byte is a valid encoding when its 12/24 marker bit says
24-hour mode, or when the BCD hour field left after the code's masking
(`&&& 0xbf` then `&&& 0xdf`) decodes into 1-12. -/
def valid_hour_byte (b : Nat) : Prop :=
  (b &&& 0x40) >>> 6 = DS1307_HOUR_FORMAT_24 ∨
  (1 ≤ BcdToDec ((b &&& 0xbf) &&& 0xdf) ∧ BcdToDec ((b &&& 0xbf) &&& 0xdf) ≤ 12)

instance (b : Nat) : Decidable (valid_hour_byte b) := by
  unfold valid_hour_byte
  infer_instance

/-- Claim C2 (amended): the context invariants hold after any
`ds1307_get_hour` whose hour-register byte is a valid encoding;
`ds1307_set_time_format` itself does not preserve them (see the
counterexample) because its 12-hour path leaves `hour`/`time_period` in
24-hour form and its 24-hour path leaves `time_period` as AM/PM. -/
theorem ctx_invariant_after_get_hour (usr : ds1307_context_t) (regs : regfile_t)
    (hb : valid_hour_byte (regs.fetch DS1307_HOUR_REG_ADR)) :
    ctx_invariant (ds1307_get_hour usr regs).1 := by
  have h5 := bit5_shift_le_one (regs.fetch DS1307_HOUR_REG_ADR &&& 0xbf)
  rcases hb with h24 | h12
  · simp only [ds1307_get_hour, ds1307_i2c_read, ctx_invariant,
      DS1307_HOUR_FORMAT_24, DS1307_HOUR_FORMAT_12, DS1307_NONE, DS1307_AM,
      DS1307_PM] at *
    constructor
    · intro _
      simp [h24]
    · intro h
      omega
  · simp only [ds1307_get_hour, ds1307_i2c_read, ctx_invariant,
      DS1307_HOUR_FORMAT_24, DS1307_HOUR_FORMAT_12, DS1307_NONE, DS1307_AM,
      DS1307_PM] at *
    constructor
    · intro h
      simp [h]
    · intro h
      simp only [if_pos h]
      omega

/-- Witness for C2 (amended) at the valid 24-hour byte 0x13. -/
theorem ctx_invariant_after_get_hour_witness :
    valid_hour_byte (({ sample_regs with hour := 0x13 } : regfile_t).fetch
      DS1307_HOUR_REG_ADR) ∧
    ctx_invariant (ds1307_get_hour sample_ctx24
      { sample_regs with hour := 0x13 }).1 :=
  ⟨by decide, ctx_invariant_after_get_hour sample_ctx24
    { sample_regs with hour := 0x13 } (by decide)⟩

/-- Claim C6: when the target format equals the format bit already in the
chip's hour register, `ds1307_set_time_format` performs exactly one
transaction, the initial hour-register read, issues no writes, leaves the
register file unchanged, and touches no context field beyond the three that
the read updates. -/
theorem ds1307_set_time_format_same_format_noop (usr : ds1307_context_t)
    (regs : regfile_t) (format : Nat)
    (hf : (regs.fetch DS1307_HOUR_REG_ADR &&& 0x40) >>> 6 = format) :
    (ds1307_set_time_format usr regs format).2.2 =
      [txn_t.rcv DS1307_HOUR_REG_ADR (regs.fetch DS1307_HOUR_REG_ADR)] ∧
    (ds1307_set_time_format usr regs format).2.1 = regs ∧
    (ds1307_set_time_format usr regs format).1.year = usr.year ∧
    (ds1307_set_time_format usr regs format).1.month = usr.month ∧
    (ds1307_set_time_format usr regs format).1.date = usr.date ∧
    (ds1307_set_time_format usr regs format).1.day = usr.day ∧
    (ds1307_set_time_format usr regs format).1.minute = usr.minute ∧
    (ds1307_set_time_format usr regs format).1.second = usr.second ∧
    (ds1307_set_time_format usr regs format).1.century = usr.century ∧
    (ds1307_set_time_format usr regs format).1.time_format = format := by
  simp only [ds1307_set_time_format, ds1307_get_hour, ds1307_i2c_read, hf,
    ne_eq, not_true_eq_false, if_false, ite_not]
  simp [hf]

/-- Witness for C6 with the chip in 24-hour mode (byte 0x23) and target
format 24-hour. -/
theorem ds1307_set_time_format_same_format_noop_witness :
    (({ sample_regs with hour := 0x23 } : regfile_t).fetch DS1307_HOUR_REG_ADR
        &&& 0x40) >>> 6 = DS1307_HOUR_FORMAT_24 ∧
    (ds1307_set_time_format sample_ctx24 { sample_regs with hour := 0x23 }
        DS1307_HOUR_FORMAT_24).2.1 = { sample_regs with hour := 0x23 } :=
  ⟨by decide, (ds1307_set_time_format_same_format_noop sample_ctx24
    { sample_regs with hour := 0x23 } DS1307_HOUR_FORMAT_24 (by decide)).2.1⟩

/-- Claim C8 (amended): `ds1307_set_year` always leaves `ctx.century` a
multiple of 100; `ds1307_set_time_format` rewrites `ctx.century` through its
internal `ds1307_set_year` call (again to a multiple of 100), and every
other driver operation leaves `ctx.century` a multiple of 100 whenever it
was one, so the property is preserved by every subsequent operation. -/
theorem ds1307_century_mult100_preserved (usr : ds1307_context_t)
    (regs : regfile_t) (m s h d dy mo y f c : Nat)
    (hc : usr.century % 100 = 0) :
    (ds1307_set_year usr regs y).1.century % 100 = 0 ∧
    (ds1307_set_minute usr regs m).1.century % 100 = 0 ∧
    (ds1307_get_minute usr regs).1.century % 100 = 0 ∧
    (ds1307_set_second usr regs s).1.century % 100 = 0 ∧
    (ds1307_get_second usr regs).1.century % 100 = 0 ∧
    (ds1307_set_hour usr regs h).1.century % 100 = 0 ∧
    (ds1307_get_hour usr regs).1.century % 100 = 0 ∧
    (ds1307_set_date usr regs d).1.century % 100 = 0 ∧
    (ds1307_get_date usr regs).1.century % 100 = 0 ∧
    (ds1307_set_day usr regs dy).1.century % 100 = 0 ∧
    (ds1307_get_day usr regs).1.century % 100 = 0 ∧
    (ds1307_set_month usr regs mo).1.century % 100 = 0 ∧
    (ds1307_get_month usr regs).1.century % 100 = 0 ∧
    (ds1307_get_year usr regs).1.century % 100 = 0 ∧
    (ds1307_set_ch usr regs c).1.century % 100 = 0 ∧
    (ds1307_set_time_format usr regs f).1.century % 100 = 0 ∧
    (DS1307_read_date_time usr regs).1.century % 100 = 0 := by
  refine ⟨show ((y % 65536) - (y % 65536) % 100) % 100 = 0 by omega,
    hc, hc, hc, hc, hc, hc, hc, hc, hc, hc, hc, hc, hc, hc, ?_, hc⟩
  simp only [ds1307_set_time_format]
  split
  · simp only [ds1307_set_second, ds1307_set_minute, ds1307_set_hour,
      ds1307_set_day, ds1307_set_date, ds1307_set_month, ds1307_set_year,
      ds1307_i2c_send]
    omega
  · exact hc

/-- Witness for C8 (amended) at a concrete state. -/
theorem ds1307_century_mult100_preserved_witness :
    sample_ctx24.century % 100 = 0 ∧
    (ds1307_set_year sample_ctx24 sample_regs 2025).1.century % 100 = 0 :=
  ⟨by decide, (ds1307_century_mult100_preserved sample_ctx24 sample_regs
    1 2 3 4 5 6 2025 1 1 (by decide)).1⟩


/-- Equation lemma: the setters do not touch the context (except
`ds1307_set_year`). -/
lemma ds1307_set_minute_ctx (u : ds1307_context_t) (r : regfile_t) (m : Nat) :
    (ds1307_set_minute u r m).1 = u := rfl

lemma ds1307_set_second_ctx (u : ds1307_context_t) (r : regfile_t) (s : Nat) :
    (ds1307_set_second u r s).1 = u := rfl

lemma ds1307_set_hour_ctx (u : ds1307_context_t) (r : regfile_t) (h : Nat) :
    (ds1307_set_hour u r h).1 = u := rfl

lemma ds1307_set_date_ctx (u : ds1307_context_t) (r : regfile_t) (d : Nat) :
    (ds1307_set_date u r d).1 = u := rfl

lemma ds1307_set_day_ctx (u : ds1307_context_t) (r : regfile_t) (d : Nat) :
    (ds1307_set_day u r d).1 = u := rfl

lemma ds1307_set_month_ctx (u : ds1307_context_t) (r : regfile_t) (m : Nat) :
    (ds1307_set_month u r m).1 = u := rfl

lemma ds1307_set_ch_ctx (u : ds1307_context_t) (r : regfile_t) (c : Nat) :
    (ds1307_set_ch u r c).1 = u := rfl

/-- Equation lemma: `ds1307_set_year` only rewrites `century`. -/
lemma ds1307_set_year_ctx (u : ds1307_context_t) (r : regfile_t) (y : Nat) :
    (ds1307_set_year u r y).1 =
      { u with century := y % 65536 - y % 65536 % 100 } := rfl

/-- Equation lemmas: fields of the context after `ds1307_get_hour`. -/
lemma ds1307_get_hour_ctx_second (u : ds1307_context_t) (r : regfile_t) :
    (ds1307_get_hour u r).1.second = u.second := rfl

lemma ds1307_get_hour_ctx_time_format (u : ds1307_context_t) (r : regfile_t) :
    (ds1307_get_hour u r).1.time_format =
      (r.fetch DS1307_HOUR_REG_ADR &&& 0x40) >>> 6 := rfl

/-- The C switch block never touches the seconds field. -/
lemma ds1307_format_switch_second (u : ds1307_context_t) (f : Nat) :
    (ds1307_format_switch u f).second = u.second := by
  simp only [ds1307_format_switch]
  repeat' split
  all_goals rfl

/-- Trace equation lemmas for the single-write operations. -/
lemma ds1307_set_minute_txn (u : ds1307_context_t) (r : regfile_t) (m : Nat) :
    (ds1307_set_minute u r m).2.2 =
      [txn_t.send DS1307_MIN_REG_ADR (DecToBcd (m % 256))] := rfl

lemma ds1307_set_second_txn (u : ds1307_context_t) (r : regfile_t) (s : Nat) :
    (ds1307_set_second u r s).2.2 =
      [txn_t.send DS1307_SEC_REG_ADR (DecToBcd (s % 256))] := rfl

lemma ds1307_set_hour_txn_shape (u : ds1307_context_t) (r : regfile_t) (h : Nat) :
    ∃ b, (ds1307_set_hour u r h).2.2 = [txn_t.send DS1307_HOUR_REG_ADR b] :=
  ⟨_, rfl⟩

lemma ds1307_set_date_txn (u : ds1307_context_t) (r : regfile_t) (d : Nat) :
    (ds1307_set_date u r d).2.2 =
      [txn_t.send DS1307_DATE_REG_ADR (DecToBcd (d % 256))] := rfl

lemma ds1307_set_day_txn (u : ds1307_context_t) (r : regfile_t) (d : Nat) :
    (ds1307_set_day u r d).2.2 =
      [txn_t.send DS1307_DAY_REG_ADR (DecToBcd (d % 256))] := rfl

lemma ds1307_set_month_txn (u : ds1307_context_t) (r : regfile_t) (m : Nat) :
    (ds1307_set_month u r m).2.2 =
      [txn_t.send DS1307_MONTH_REG_ADR (DecToBcd (m % 256))] := rfl

lemma ds1307_set_year_txn (u : ds1307_context_t) (r : regfile_t) (y : Nat) :
    (ds1307_set_year u r y).2.2 =
      [txn_t.send DS1307_YEAR_REG_ADR (DecToBcd (y % 65536 % 100))] := rfl

lemma ds1307_set_ch_txn (u : ds1307_context_t) (r : regfile_t) (c : Nat) :
    (ds1307_set_ch u r c).2.2 =
      [txn_t.send DS1307_SEC_REG_ADR
        (if c = DS1307_CLOCK_DISABLE then 0 ||| 1 <<< 7 else 0)] := rfl

lemma ds1307_get_hour_txn (u : ds1307_context_t) (r : regfile_t) :
    (ds1307_get_hour u r).2.2 =
      [txn_t.rcv DS1307_HOUR_REG_ADR (r.fetch DS1307_HOUR_REG_ADR)] := rfl

/-- The seconds register after `ds1307_set_second`. -/
lemma ds1307_set_second_sec (u : ds1307_context_t) (r : regfile_t) (s : Nat) :
    (ds1307_set_second u r s).2.1.sec = DecToBcd (s % 256) % 256 := rfl

/-- Claim C9: when `ds1307_set_time_format` actually changes the format and
the context's seconds value is in range, the last transaction it issues is
the seconds-register write of `ds1307_set_second`, whose byte is the BCD
seconds with bit 7 (the clock-halt bit asserted early in the transition)
clear, and that byte is what the seconds register holds afterwards. -/
theorem ds1307_set_time_format_final_write (usr : ds1307_context_t)
    (regs : regfile_t) (format : Nat)
    (hne : (regs.fetch DS1307_HOUR_REG_ADR &&& 0x40) >>> 6 ≠ format)
    (hs : usr.second ≤ 59) :
    ((ds1307_set_time_format usr regs format).2.2).getLast? =
      some (txn_t.send DS1307_SEC_REG_ADR (DecToBcd usr.second)) ∧
    DecToBcd usr.second &&& 0x80 = 0 ∧
    (ds1307_set_time_format usr regs format).2.1.sec = DecToBcd usr.second := by
  have hbyte := decbcd_second_byte usr.second (by omega)
  have hmod : usr.second % 256 = usr.second := Nat.mod_eq_of_lt (by omega)
  have hcond : ¬ ((ds1307_get_hour usr regs).1.time_format = format) := by
    rw [ds1307_get_hour_ctx_time_format]
    exact hne
  refine ⟨?_, hbyte.2.1, ?_⟩
  · simp only [ds1307_set_time_format, ne_eq, hcond, not_false_eq_true, if_true,
      ds1307_set_minute_ctx, ds1307_set_hour_ctx, ds1307_set_day_ctx,
      ds1307_set_date_ctx, ds1307_set_month_ctx, ds1307_set_ch_ctx,
      ds1307_set_year_ctx, ds1307_get_hour_txn, ds1307_set_ch_txn,
      ds1307_set_year_txn, ds1307_set_month_txn, ds1307_set_date_txn,
      ds1307_set_day_txn, ds1307_set_minute_txn, ds1307_set_second_txn,
      ds1307_format_switch_second, ds1307_get_hour_ctx_second, hmod]
    rfl
  · simp only [ds1307_set_time_format, ne_eq, hcond, not_false_eq_true, if_true,
      ds1307_set_minute_ctx, ds1307_set_hour_ctx, ds1307_set_day_ctx,
      ds1307_set_date_ctx, ds1307_set_month_ctx, ds1307_set_ch_ctx,
      ds1307_set_year_ctx, ds1307_set_second_sec,
      ds1307_format_switch_second, ds1307_get_hour_ctx_second, hmod]
    omega

/-- Witness for C9: switching from the 24-hour byte 0x13 to 12-hour mode
with 59 seconds in the context. -/
theorem ds1307_set_time_format_final_write_witness :
    ((({ sample_regs with hour := 0x13 } : regfile_t).fetch DS1307_HOUR_REG_ADR
        &&& 0x40) >>> 6 ≠ DS1307_HOUR_FORMAT_12) ∧
    ({ sample_ctx24 with second := 59 } : ds1307_context_t).second ≤ 59 ∧
    ((ds1307_set_time_format { sample_ctx24 with second := 59 }
        { sample_regs with hour := 0x13 } DS1307_HOUR_FORMAT_12).2.2).getLast? =
      some (txn_t.send DS1307_SEC_REG_ADR (DecToBcd 59)) :=
  ⟨by decide, by decide,
    (ds1307_set_time_format_final_write { sample_ctx24 with second := 59 }
      { sample_regs with hour := 0x13 } DS1307_HOUR_FORMAT_12 (by decide)
      (by decide)).1⟩

/-- Equation lemma: the context after `ds1307_get_year`. -/
lemma ds1307_get_year_ctx (u : ds1307_context_t) (r : regfile_t) :
    (ds1307_get_year u r).1 =
      { u with year := (u.century + BcdToDec (r.fetch DS1307_YEAR_REG_ADR))
          % 65536 } := rfl

/-- Equation lemma: the year register byte after `ds1307_set_year`. -/
lemma ds1307_set_year_regs_year (u : ds1307_context_t) (r : regfile_t) (y : Nat) :
    (ds1307_set_year u r y).2.1.year = DecToBcd (y % 65536 % 100) % 256 := rfl

/-- Equation lemma: fetching the year register. -/
lemma regfile_fetch_year (r : regfile_t) :
    r.fetch DS1307_YEAR_REG_ADR = r.year % 256 := rfl

/-- Equation lemma: the year register after writing 0 to it. -/
lemma regfile_write_year_zero (r : regfile_t) :
    (r.write DS1307_YEAR_REG_ADR 0).year = 0 := rfl

/-- Claim C5: for a 4-digit year, `ds1307_set_year` then `ds1307_get_year`
through the echo transport reconstructs exactly `y`, the invariant
`century + year % 100 = year` holds afterwards, and if the chip's 2-digit
field reads back as 00 instead, `ds1307_get_year` returns the century
carried from the earlier `ds1307_set_year` (`y - y % 100`), not a
recomputed value. -/
theorem ds1307_year_roundtrip_century (usr : ds1307_context_t)
    (regs : regfile_t) (y : Nat) (h1 : 1000 ≤ y) (h2 : y ≤ 9999) :
    (ds1307_get_year (ds1307_set_year usr regs y).1
        (ds1307_set_year usr regs y).2.1).1.year = y ∧
    (ds1307_get_year (ds1307_set_year usr regs y).1
          (ds1307_set_year usr regs y).2.1).1.century +
        (ds1307_get_year (ds1307_set_year usr regs y).1
          (ds1307_set_year usr regs y).2.1).1.year % 100 =
      (ds1307_get_year (ds1307_set_year usr regs y).1
        (ds1307_set_year usr regs y).2.1).1.year ∧
    (ds1307_get_year (ds1307_set_year usr regs y).1
        (regfile_t.write (ds1307_set_year usr regs y).2.1
          DS1307_YEAR_REG_ADR 0)).1.year = y - y % 100 := by
  have hy : y % 65536 = y := Nat.mod_eq_of_lt (by omega)
  have hbcd : BcdToDec (DecToBcd (y % 100)) = y % 100 :=
    bcd_roundtrip_lt _ (by omega)
  have hlt : DecToBcd (y % 100) < 256 := Nat.mod_lt _ (by decide)
  have hm : DecToBcd (y % 100) % 256 % 256 = DecToBcd (y % 100) := by omega
  have hb0 : BcdToDec 0 = 0 := by decide
  simp only [ds1307_get_year_ctx, regfile_fetch_year,
    ds1307_set_year_regs_year, regfile_write_year_zero, ds1307_set_year_ctx,
    hy, hm, hbcd, hb0, Nat.zero_mod]
  omega

/-- Witness for C5 at y = 2025. -/
theorem ds1307_year_roundtrip_century_witness :
    1000 ≤ 2025 ∧ 2025 ≤ 9999 ∧
    (ds1307_get_year (ds1307_set_year sample_ctx24 sample_regs 2025).1
        (ds1307_set_year sample_ctx24 sample_regs 2025).2.1).1.year = 2025 :=
  ⟨by decide, by decide,
    (ds1307_year_roundtrip_century sample_ctx24 sample_regs 2025 (by decide)
      (by decide)).1⟩

/-- Equation lemmas: fetching and writing the hour register, the register
file after each single-write operation (spelling out the byte each one
computes), and the full context update of `ds1307_get_hour`.  All hold by
unfolding the definitions. -/
lemma regfile_fetch_hour (r : regfile_t) :
    r.fetch DS1307_HOUR_REG_ADR = r.hour % 256 := rfl

lemma regfile_write_sec_hour (r : regfile_t) (v : Nat) :
    (r.write DS1307_SEC_REG_ADR v).hour = r.hour := rfl

lemma regfile_write_min_hour (r : regfile_t) (v : Nat) :
    (r.write DS1307_MIN_REG_ADR v).hour = r.hour := rfl

lemma regfile_write_day_hour (r : regfile_t) (v : Nat) :
    (r.write DS1307_DAY_REG_ADR v).hour = r.hour := rfl

lemma regfile_write_date_hour (r : regfile_t) (v : Nat) :
    (r.write DS1307_DATE_REG_ADR v).hour = r.hour := rfl

lemma regfile_write_month_hour (r : regfile_t) (v : Nat) :
    (r.write DS1307_MONTH_REG_ADR v).hour = r.hour := rfl

lemma regfile_write_year_hour (r : regfile_t) (v : Nat) :
    (r.write DS1307_YEAR_REG_ADR v).hour = r.hour := rfl

lemma regfile_write_hour_hour (r : regfile_t) (v : Nat) :
    (r.write DS1307_HOUR_REG_ADR v).hour = v % 256 := rfl

lemma ds1307_set_minute_regs (u : ds1307_context_t) (r : regfile_t) (m : Nat) :
    (ds1307_set_minute u r m).2.1 =
      r.write DS1307_MIN_REG_ADR (DecToBcd (m % 256)) := rfl

lemma ds1307_set_second_regs (u : ds1307_context_t) (r : regfile_t) (s : Nat) :
    (ds1307_set_second u r s).2.1 =
      r.write DS1307_SEC_REG_ADR (DecToBcd (s % 256)) := rfl

lemma ds1307_set_date_regs (u : ds1307_context_t) (r : regfile_t) (d : Nat) :
    (ds1307_set_date u r d).2.1 =
      r.write DS1307_DATE_REG_ADR (DecToBcd (d % 256)) := rfl

lemma ds1307_set_day_regs (u : ds1307_context_t) (r : regfile_t) (d : Nat) :
    (ds1307_set_day u r d).2.1 =
      r.write DS1307_DAY_REG_ADR (DecToBcd (d % 256)) := rfl

lemma ds1307_set_month_regs (u : ds1307_context_t) (r : regfile_t) (m : Nat) :
    (ds1307_set_month u r m).2.1 =
      r.write DS1307_MONTH_REG_ADR (DecToBcd (m % 256)) := rfl

lemma ds1307_set_year_regs (u : ds1307_context_t) (r : regfile_t) (y : Nat) :
    (ds1307_set_year u r y).2.1 =
      r.write DS1307_YEAR_REG_ADR (DecToBcd (y % 65536 % 100)) := rfl

lemma ds1307_set_ch_regs (u : ds1307_context_t) (r : regfile_t) (c : Nat) :
    (ds1307_set_ch u r c).2.1 =
      r.write DS1307_SEC_REG_ADR
        (if c = DS1307_CLOCK_DISABLE then 0 ||| 1 <<< 7 else 0) := rfl

lemma ds1307_set_hour_regs (u : ds1307_context_t) (r : regfile_t) (h : Nat) :
    (ds1307_set_hour u r h).2.1 =
      r.write DS1307_HOUR_REG_ADR
        (if u.time_format = DS1307_HOUR_FORMAT_12 then
          (if h % 256 > 11 then
            (if h % 256 - 12 = 0 then DecToBcd 12 ||| 1 <<< 5
             else if h % 256 - 12 = 12 then DecToBcd (h % 256 - 12) &&& 0xdf
             else DecToBcd (h % 256 - 12) ||| 1 <<< 5)
           else if h % 256 = 0 then h % 256 + 12
           else DecToBcd (h % 256) &&& 0xdf) ||| 1 <<< 6
         else DecToBcd (h % 256)) := rfl

lemma ds1307_get_hour_regs (u : ds1307_context_t) (r : regfile_t) :
    (ds1307_get_hour u r).2.1 = r := rfl

lemma ds1307_get_hour_ctx_full (u : ds1307_context_t) (r : regfile_t) :
    (ds1307_get_hour u r).1 =
      { u with
        time_format := (r.fetch DS1307_HOUR_REG_ADR &&& 0x40) >>> 6,
        time_period :=
          if (r.fetch DS1307_HOUR_REG_ADR &&& 0x40) >>> 6 = DS1307_HOUR_FORMAT_12
          then (r.fetch DS1307_HOUR_REG_ADR &&& 0xbf &&& 0x20) >>> 5
          else DS1307_NONE,
        hour := BcdToDec
          (if (r.fetch DS1307_HOUR_REG_ADR &&& 0x40) >>> 6 = DS1307_HOUR_FORMAT_12
           then r.fetch DS1307_HOUR_REG_ADR &&& 0xbf &&& 0xdf
           else r.fetch DS1307_HOUR_REG_ADR &&& 0xbf) } := rfl

set_option maxRecDepth 2048 in
/-- Claim C3: for every hour h in 0-23, with the chip hour register holding
the 24-hour encoding of h and the echo transport, switching to 12-hour
format and back to 24-hour format restores the hour register to the
24-hour encoding of h and the context hour to h (with the context back in
24-hour format); starting at h = 13 the intermediate 12-hour state reads
back as hour 1 with period PM. -/
theorem ds1307_format_roundtrip_hour (usr : ds1307_context_t) (regs : regfile_t)
    (h : Nat) (hh : h < 24) (hreg : regs.hour = DecToBcd h) :
    (ds1307_set_time_format
        (ds1307_set_time_format usr regs DS1307_HOUR_FORMAT_12).1
        (ds1307_set_time_format usr regs DS1307_HOUR_FORMAT_12).2.1
        DS1307_HOUR_FORMAT_24).2.1.hour = DecToBcd h ∧
    (ds1307_set_time_format
        (ds1307_set_time_format usr regs DS1307_HOUR_FORMAT_12).1
        (ds1307_set_time_format usr regs DS1307_HOUR_FORMAT_12).2.1
        DS1307_HOUR_FORMAT_24).1.hour = h ∧
    (ds1307_set_time_format
        (ds1307_set_time_format usr regs DS1307_HOUR_FORMAT_12).1
        (ds1307_set_time_format usr regs DS1307_HOUR_FORMAT_12).2.1
        DS1307_HOUR_FORMAT_24).1.time_format = DS1307_HOUR_FORMAT_24 ∧
    (h = 13 →
      (ds1307_get_hour (ds1307_set_time_format usr regs DS1307_HOUR_FORMAT_12).1
          (ds1307_set_time_format usr regs DS1307_HOUR_FORMAT_12).2.1).1.hour = 1 ∧
      (ds1307_get_hour (ds1307_set_time_format usr regs DS1307_HOUR_FORMAT_12).1
          (ds1307_set_time_format usr regs DS1307_HOUR_FORMAT_12).2.1).1.time_period =
        DS1307_PM) := by
  interval_cases h
  all_goals
  simp +decide only [ds1307_set_time_format, ds1307_get_hour_ctx_full,
    ds1307_get_hour_regs, ds1307_set_ch_ctx, ds1307_set_ch_regs,
    ds1307_set_year_ctx, ds1307_set_year_regs, ds1307_set_month_ctx,
    ds1307_set_month_regs, ds1307_set_date_ctx, ds1307_set_date_regs,
    ds1307_set_day_ctx, ds1307_set_day_regs, ds1307_set_hour_ctx,
    ds1307_set_hour_regs, ds1307_set_minute_ctx, ds1307_set_minute_regs,
    ds1307_set_second_ctx, ds1307_set_second_regs, ds1307_format_switch,
    regfile_fetch_hour, regfile_write_sec_hour, regfile_write_min_hour,
    regfile_write_day_hour, regfile_write_date_hour, regfile_write_month_hour,
    regfile_write_year_hour, regfile_write_hour_hour, ne_eq, hreg, ite_true,
    ite_false, if_true, if_false, not_true, not_false_iff]

/-- Witness for C3 at h = 13. -/
theorem ds1307_format_roundtrip_hour_witness :
    (13 : Nat) < 24 ∧
    ({ sample_regs with hour := DecToBcd 13 } : regfile_t).hour = DecToBcd 13 ∧
    (ds1307_set_time_format
        (ds1307_set_time_format sample_ctx24
          { sample_regs with hour := DecToBcd 13 } DS1307_HOUR_FORMAT_12).1
        (ds1307_set_time_format sample_ctx24
          { sample_regs with hour := DecToBcd 13 } DS1307_HOUR_FORMAT_12).2.1
        DS1307_HOUR_FORMAT_24).1.hour = 13 :=
  ⟨by decide, by decide,
    (ds1307_format_roundtrip_hour sample_ctx24
      { sample_regs with hour := DecToBcd 13 } 13 (by decide) (by decide)).2.1⟩
